import Mathlib

/-!
Verification of the solar-terminator model of StudioFolder/lightpath.

The repository is a single React component (`src/src/App.jsx`, two
variants separated in the snapshot).  This file gives a shallow
embedding over `ℝ` of the parts of that component the specification
talks about: the altitude/azimuth to Cartesian conversion of the sun
position, the night-hemisphere clipping plane, the marker placement
from latitude/longitude, the geolocation fallback, the per-frame
callback `animate`, and the teardown routine returned by the effect.

JavaScript numbers are modelled as real numbers; `Date` values are
modelled by their millisecond timestamp `ms : ℝ`; `Math.atan2` is
modelled by an explicit case split matching its specification.
-/

namespace Lightpath

open Real

/-- Model of a `THREE.Vector3`: three real components. -/
structure Vec3 where
  x : ℝ
  y : ℝ
  z : ℝ

/-- Euclidean magnitude of a vector (`THREE.Vector3.length`). -/
noncomputable def mag (v : Vec3) : ℝ := Real.sqrt (v.x ^ 2 + v.y ^ 2 + v.z ^ 2)

/-- Model of `THREE.Vector3.multiplyScalar`: componentwise scaling (the
library routine mutates in place; the embedding returns the scaled
value). -/
def smul (c : ℝ) (v : Vec3) : Vec3 := ⟨c * v.x, c * v.y, c * v.z⟩

/-- Model of `THREE.Vector3.negate`: componentwise negation. -/
def negV (v : Vec3) : Vec3 := ⟨-v.x, -v.y, -v.z⟩

/-- JavaScript `Math.atan2 y x` over the reals: the angle of the point
`(x, y)` in `(-π, π]`, with `atan2 0 0 = 0`.  (Signed zeros of IEEE
arithmetic have no counterpart in `ℝ`.) -/
noncomputable def atan2 (y x : ℝ) : ℝ :=
  if 0 < x then Real.arctan (y / x)
  else if x < 0 then
    (if 0 ≤ y then Real.arctan (y / x) + Real.pi else Real.arctan (y / x) - Real.pi)
  else
    (if 0 < y then Real.pi / 2 else if y < 0 then -(Real.pi / 2) else 0)

/-! ## Solar position model

Modelled from the spec: §4.1 refers to "a standard solar-position
algorithm — e.g. NOAA/SunCalc astronomical formulas"; the component
calls `SunCalc.getPosition(date, 0, 0)` from the `suncalc` npm package,
whose code is not under `src/`.  The definitions below transcribe that
algorithm (mean anomaly, ecliptic longitude, declination and right
ascension of the sun, sidereal time, local altitude and azimuth) over
the reals. -/

/-- Degrees-to-radians factor (`rad` in SunCalc). -/
noncomputable def rad : ℝ := Real.pi / 180

/-- Milliseconds per day. -/
def dayMs : ℝ := 86400000

/-- Days since J2000.0 of the instant with timestamp `ms`
(`toDays` in SunCalc: `ms / dayMs - 0.5 + 2440588 - 2451545`). -/
noncomputable def toDays (ms : ℝ) : ℝ := ms / dayMs - 0.5 + 2440588 - 2451545

/-- Obliquity of the ecliptic used by SunCalc: `rad * 23.4397`. -/
noncomputable def obliquity : ℝ := rad * 23.4397

/-- Solar mean anomaly at `d` days since J2000.0. -/
noncomputable def solarMeanAnomaly (d : ℝ) : ℝ := rad * (357.5291 + 0.98560028 * d)

/-- Ecliptic longitude of the sun from its mean anomaly `M`:
`M + C + P + π` with the equation of center `C` and perihelion `P`. -/
noncomputable def eclipticLongitude (M : ℝ) : ℝ :=
  M + rad * (1.9148 * Real.sin M + 0.02 * Real.sin (2 * M) + 0.0003 * Real.sin (3 * M))
    + rad * 102.9372 + Real.pi

/-- Declination of a body at ecliptic longitude `l`, latitude `b`. -/
noncomputable def declination (l b : ℝ) : ℝ :=
  Real.arcsin (Real.sin b * Real.cos obliquity + Real.cos b * Real.sin l * Real.sin obliquity)

/-- Right ascension of a body at ecliptic longitude `l`, latitude `b`. -/
noncomputable def rightAscension (l b : ℝ) : ℝ :=
  atan2 (Real.sin l * Real.cos obliquity - Real.tan b * Real.sin obliquity) (Real.cos l)

/-- Sidereal time at `d` days since J2000.0 and west longitude `lw`. -/
noncomputable def siderealTime (d lw : ℝ) : ℝ := rad * (280.16 + 360.9856235 * d) - lw

/-- Local altitude of a body with hour angle `H` and declination `dec`
seen from latitude `phi`. -/
noncomputable def altitude (H phi dec : ℝ) : ℝ :=
  Real.arcsin (Real.sin phi * Real.sin dec + Real.cos phi * Real.cos dec * Real.cos H)

/-- Local azimuth of a body with hour angle `H` and declination `dec`
seen from latitude `phi`. -/
noncomputable def azimuth (H phi dec : ℝ) : ℝ :=
  atan2 (Real.sin H) (Real.cos H * Real.sin phi - Real.tan dec * Real.cos phi)

/-- Result of `SunCalc.getPosition`: the sun's local altitude and
azimuth, in radians. -/
structure SunPos where
  altitude : ℝ
  azimuth : ℝ

/-- Model of `SunCalc.getPosition(date, lat, lng)`, for the instant with
timestamp `ms`. -/
noncomputable def getPosition (ms lat lng : ℝ) : SunPos :=
  let lw := rad * (-lng)
  let phi := rad * lat
  let d := toDays ms
  let M := solarMeanAnomaly d
  let L := eclipticLongitude M
  let dec := declination L 0
  let ra := rightAscension L 0
  let H := siderealTime d lw - ra
  ⟨altitude H phi dec, azimuth H phi dec⟩

/-! ## Direction vector, light and clipping plane (both variants) -/

/-- Variant 1, `App.jsx` lines 110-117: the sun position at the current
instant for reference location `(0, 0)`, converted to a direction
vector `x = cos alt * sin az`, `y = sin alt`, `z = cos alt * cos az`. -/
noncomputable def sunDirection1 (ms : ℝ) : Vec3 :=
  let sunPos := getPosition ms 0 0
  ⟨Real.cos sunPos.altitude * Real.sin sunPos.azimuth,
   Real.sin sunPos.altitude,
   Real.cos sunPos.altitude * Real.cos sunPos.azimuth⟩

/-- Variant 2, `App.jsx` lines 314-323: the same computation transcribed
from the second snapshot of the component. -/
noncomputable def sunDirection2 (ms : ℝ) : Vec3 :=
  let sunPos := getPosition ms 0 0
  ⟨Real.cos sunPos.altitude * Real.sin sunPos.azimuth,
   Real.sin sunPos.altitude,
   Real.cos sunPos.altitude * Real.cos sunPos.azimuth⟩

/-- Variant 1, line 130: `sunLight.position.copy(sunDirection.multiplyScalar(10))`.
`multiplyScalar` mutates `sunDirection` in place; after this line the
vector held by the `sunDirection` binding is `10 • sunDirection1 ms`,
and it is also the light position. -/
noncomputable def sunDirectionScaled1 (ms : ℝ) : Vec3 := smul 10 (sunDirection1 ms)

/-- Variant 1 light position (line 130). -/
noncomputable def sunLightPos1 (ms : ℝ) : Vec3 := sunDirectionScaled1 ms

/-- Variant 2 light position (line 309): `sunLight.position.set(5, 3, 5)`,
independent of the sun direction. -/
def sunLightPos2 : Vec3 := ⟨5, 3, 5⟩

/-- Variant 1, line 134: `new THREE.Plane(sunDirection.clone().negate(), 0)`.
At this point `sunDirection` has already been scaled by 10 (line 130), so
the stored plane normal is the negation of the scaled vector.  The
`THREE.Plane` constructor stores its arguments without normalising. -/
noncomputable def clipPlaneNormal1 (ms : ℝ) : Vec3 := negV (sunDirectionScaled1 ms)

/-- Variant 1 plane constant (second constructor argument, line 134). -/
def clipPlaneConstant1 : ℝ := 0

/-- Variant 2, line 327: `new THREE.Plane(sunDirection.clone().negate(), 0)`;
here `sunDirection` is still the unit vector of lines 320-323. -/
noncomputable def clipPlaneNormal2 (ms : ℝ) : Vec3 := negV (sunDirection2 ms)

/-- Variant 2 plane constant (second constructor argument, line 327). -/
def clipPlaneConstant2 : ℝ := 0

/-! ## Marker placement and geolocation -/

/-- Marker placement `positionDotAtLocation(lat, lon)` (lines 77-85):
the on-sphere position the marker is set to, radius 2. -/
noncomputable def positionDotAtLocation (lat lon : ℝ) : Vec3 :=
  let phi := (90 - lat) * (Real.pi / 180)
  let theta := (lon + 180) * (Real.pi / 180)
  let radius : ℝ := 2
  ⟨-radius * Real.sin phi * Real.cos theta,
   radius * Real.cos phi,
   radius * Real.sin phi * Real.sin theta⟩

/-- Modelled from the spec: §8 item 5 requires a round trip "via inverse
spherical formulas", which appear in no source file.  The standard
inverse of the marker placement: colatitude from `arccos (y / r)`,
longitude angle from `atan2 z (-x)` normalised to `[0, 2π)`, then the
same degree offsets run backwards. -/
noncomputable def inverseLatLon (v : Vec3) : ℝ × ℝ :=
  let phi := Real.arccos (v.y / 2)
  let theta0 := atan2 v.z (-v.x)
  let theta := if theta0 < 0 then theta0 + 2 * Real.pi else theta0
  (90 - phi * (180 / Real.pi), theta * (180 / Real.pi) - 180)

/-- Outcome of the one-shot geolocation query (lines 88-105): the
success callback's coordinates, the error callback, or the synchronous
branch taken when `navigator.geolocation` is absent. -/
inductive GeoOutcome where
  | success (lat lon : ℝ)
  | geoError
  | unsupported

/-! ## Mutable scene state and the per-frame callback -/

/-- The renderer-owned state the component mutates: the globe mesh and
night-shell rotations, the marker's local position (the dot is a child
of the globe mesh, line 107), the marker material's emissive intensity,
the clip plane, the light position, the displayed time, and the
bookkeeping flags for the frame schedule, the resize listener and the
renderer. -/
structure AppState where
  sphereRotY : ℝ
  nightRotY : ℝ
  dotPos : Vec3
  emissiveIntensity : ℝ
  clipNormal : Vec3
  clipConstant : ℝ
  lightPos : Vec3
  displayedTime : ℝ
  framePending : Bool
  resizeListenerAttached : Bool
  rendererDisposed : Bool
  loggedGeoError : Bool

/-- State after the setup section of variant 1 runs at instant `t0`,
before the geolocation query resolves and before the first frame:
meshes start with rotation 0 and the marker at the `THREE.Object3D`
default position `(0, 0, 0)`; the light is placed at the scaled sun
direction (line 130) and the clip plane stores the mutated-then-negated
direction (line 134). -/
noncomputable def initState (t0 : ℝ) : AppState where
  sphereRotY := 0
  nightRotY := 0
  dotPos := ⟨0, 0, 0⟩
  emissiveIntensity := 1
  clipNormal := clipPlaneNormal1 t0
  clipConstant := clipPlaneConstant1
  lightPos := sunLightPos1 t0
  displayedTime := t0
  framePending := true
  resizeListenerAttached := true
  rendererDisposed := false
  loggedGeoError := false

/-- The geolocation callbacks (lines 90-105) applied to the state:
success positions the marker at the reported coordinates; the error
callback and the unsupported branch both log and position it at the
Milan fallback `(45.464, 9.190)`.  Every branch is total: no outcome
throws. -/
noncomputable def applyGeoOutcome : GeoOutcome → AppState → AppState
  | .success lat lon, s => { s with dotPos := positionDotAtLocation lat lon }
  | .geoError, s =>
      { s with dotPos := positionDotAtLocation 45.464 9.190, loggedGeoError := true }
  | .unsupported, s =>
      { s with dotPos := positionDotAtLocation 45.464 9.190, loggedGeoError := true }

/-- Number of `getCurrentPosition` calls the setup issues: one when the
provider exists, zero otherwise; nothing ever calls it again. -/
def geolocationRequests (supported : Bool) : Nat :=
  if supported then 1 else 0

/-- The per-frame callback `animate` of variant 1 (lines 149-165), at an
invocation whose wall clock reads `now` (milliseconds): it reschedules
itself, adds 0.002 to the globe's y rotation, pulsates the marker
material, and refreshes the displayed time.  It touches neither the sun
direction, nor the light, nor the clip plane, nor the night shell. -/
noncomputable def animate (now : ℝ) (s : AppState) : AppState :=
  { s with
    framePending := true
    sphereRotY := s.sphereRotY + 0.002
    emissiveIntensity := 0.5 + Real.sin (now * 0.002) * 0.5
    displayedTime := now }

/-- The cleanup closure returned by the effect (lines 179-182): it
removes the resize listener and disposes the renderer.  It does not
cancel the animation-frame schedule. -/
def cleanup (s : AppState) : AppState :=
  { s with resizeListenerAttached := false, rendererDisposed := true }

/-! ## General lemmas about the embedded operations -/

theorem magSq_dir (a z : ℝ) :
    (Real.cos a * Real.sin z) ^ 2 + Real.sin a ^ 2 + (Real.cos a * Real.cos z) ^ 2 = 1 := by
  have h1 := Real.sin_sq_add_cos_sq z
  have h2 := Real.sin_sq_add_cos_sq a
  nlinarith [h1, h2]

theorem sunDirection1_mag (ms : ℝ) : mag (sunDirection1 ms) = 1 := by
  have h := magSq_dir (getPosition ms 0 0).altitude (getPosition ms 0 0).azimuth
  simp only [sunDirection1, mag]
  rw [h, Real.sqrt_one]

theorem sunDirection2_mag (ms : ℝ) : mag (sunDirection2 ms) = 1 :=
  sunDirection1_mag ms

theorem mag_smul (c : ℝ) (v : Vec3) : mag (smul c v) = |c| * mag v := by
  simp only [smul, mag]
  rw [show (c * v.x) ^ 2 + (c * v.y) ^ 2 + (c * v.z) ^ 2
        = c ^ 2 * (v.x ^ 2 + v.y ^ 2 + v.z ^ 2) by ring,
      Real.sqrt_mul (sq_nonneg c), Real.sqrt_sq_eq_abs]

theorem mag_negV (v : Vec3) : mag (negV v) = mag v := by
  simp only [mag, negV]
  congr 1
  ring

theorem mag_zero_vec : mag ⟨0, 0, 0⟩ = 0 := by
  simp [mag]

theorem mag_positionDot (lat lon : ℝ) : mag (positionDotAtLocation lat lon) = 2 := by
  have key : ∀ p t : ℝ,
      mag ⟨-2 * Real.sin p * Real.cos t, 2 * Real.cos p, 2 * Real.sin p * Real.sin t⟩ = 2 := by
    intro p t
    rw [mag]
    have h1 := Real.sin_sq_add_cos_sq p
    have h2 := Real.sin_sq_add_cos_sq t
    have harg : (-2 * Real.sin p * Real.cos t) ^ 2 + (2 * Real.cos p) ^ 2
        + (2 * Real.sin p * Real.sin t) ^ 2 = 4 := by nlinarith [h1, h2]
    rw [harg, show (4 : ℝ) = 2 ^ 2 by norm_num, Real.sqrt_sq (by norm_num)]
  exact key _ _

theorem clipPlaneNormal1_mag (t : ℝ) : mag (clipPlaneNormal1 t) = 10 := by
  rw [clipPlaneNormal1, sunDirectionScaled1, mag_negV, mag_smul, sunDirection1_mag]
  norm_num

theorem clipPlaneNormal1_ne_neg_unit (t : ℝ) :
    clipPlaneNormal1 t ≠ negV (sunDirection1 t) := by
  intro h
  have h1 := clipPlaneNormal1_mag t
  rw [h, mag_negV, sunDirection1_mag t] at h1
  norm_num at h1

/-! ## Claims C1, C2, C9 -/

/-- Claim C1: for every instant, the altitude/azimuth-to-Cartesian
conversion applied to the SunCalc sun position yields a direction vector
of Euclidean magnitude 1 — exactly 1 in the real-number embedding, hence
within the floating tolerance `1e-6` — in both source variants. -/
theorem C1_sun_direction_unit (ms : ℝ) :
    mag (sunDirection1 ms) = 1 ∧ mag (sunDirection2 ms) = 1 ∧
    |mag (sunDirection1 ms) - 1| ≤ 1 / 1000000 := by
  refine ⟨sunDirection1_mag ms, sunDirection2_mag ms, ?_⟩
  rw [sunDirection1_mag ms]
  norm_num

/-- Claim C2, counterexample: in variant 1 the vector bound to
`sunDirection` is scaled in place by 10 (line 130) before the plane is
constructed (line 134), so at the concrete instant `ms = 0` the stored
plane normal is not the negation of the unit solar direction vector. -/
theorem C2_counterexample :
    mag (clipPlaneNormal1 0) = 10 ∧ mag (negV (sunDirection1 0)) = 1 ∧
    clipPlaneNormal1 0 ≠ negV (sunDirection1 0) :=
  ⟨clipPlaneNormal1_mag 0, by rw [mag_negV, sunDirection1_mag],
    clipPlaneNormal1_ne_neg_unit 0⟩

/-- Claim C2 (amended): in variant 2 the clip-plane normal equals the
negation of the unit solar direction vector with offset 0; in variant 1
the normal is the negation of the direction vector already scaled by 10
(magnitude 10, same direction), also with offset 0, so the plane passes
through the globe center in both variants. -/
theorem C2_clip_plane (ms : ℝ) :
    clipPlaneNormal2 ms = negV (sunDirection2 ms) ∧ clipPlaneConstant2 = 0 ∧
    clipPlaneNormal1 ms = negV (smul 10 (sunDirection1 ms)) ∧ clipPlaneConstant1 = 0 ∧
    mag (clipPlaneNormal1 ms) = 10 ∧ mag (clipPlaneNormal2 ms) = 1 := by
  refine ⟨rfl, rfl, rfl, rfl, clipPlaneNormal1_mag ms, ?_⟩
  rw [clipPlaneNormal2, mag_negV, sunDirection2_mag]

/-- Claim C9: the two source variants compute identical solar direction
vectors for the same instant: both call the same solar-position
algorithm at reference location (0, 0) and apply the same conversion, so
before any subsequent mutation the two embedded direction-vector
functions are extensionally equal. -/
theorem C9_variants_agree : ∀ ms : ℝ, sunDirection1 ms = sunDirection2 ms :=
  fun _ => rfl

/-! ## Claims C3, C10, C8 (the frame driver and teardown) -/

/-- Claim C3, counterexample: the per-frame callback does not reapply
the solar direction.  At instant 0, one `animate` invocation on the
setup state leaves the clip-plane normal exactly as setup stored it, and
that stored value is not the negation of the solar direction vector for
the current instant. -/
theorem C3_counterexample :
    (animate 0 (initState 0)).clipNormal = (initState 0).clipNormal ∧
    (animate 0 (initState 0)).clipNormal ≠ negV (sunDirection1 0) := by
  refine ⟨rfl, ?_⟩
  show clipPlaneNormal1 0 ≠ negV (sunDirection1 0)
  exact clipPlaneNormal1_ne_neg_unit 0

/-- Claim C3 (amended): the subsolar position and solar direction vector
are computed once, during setup, and written into the light and
clip-plane objects; the per-frame callback never recomputes or reapplies
them — it leaves the clip-plane normal, plane constant and light
position of the state untouched on every invocation. -/
theorem C3_direction_computed_once (now t0 : ℝ) (s : AppState) :
    (animate now s).clipNormal = s.clipNormal ∧
    (animate now s).clipConstant = s.clipConstant ∧
    (animate now s).lightPos = s.lightPos ∧
    (initState t0).clipNormal = clipPlaneNormal1 t0 ∧
    (initState t0).lightPos = sunLightPos1 t0 :=
  ⟨rfl, rfl, rfl, rfl, rfl⟩

/-- Claim C10: every invocation of the per-frame callback adds exactly
0.002 to the globe mesh's y rotation and leaves the night-overlay
sphere's orientation, the clip-plane normal and the marker's local
position (the marker is a child of the globe mesh) unchanged. -/
theorem C10_frame_effects (now : ℝ) (s : AppState) :
    (animate now s).sphereRotY = s.sphereRotY + 0.002 ∧
    (animate now s).nightRotY = s.nightRotY ∧
    (animate now s).clipNormal = s.clipNormal ∧
    (animate now s).clipConstant = s.clipConstant ∧
    (animate now s).dotPos = s.dotPos :=
  ⟨rfl, rfl, rfl, rfl, rfl⟩

/-- Claim C8: the cleanup routine removes the resize listener and
disposes the renderer but never cancels the animation-frame schedule:
`framePending` survives cleanup unchanged, and after a tick followed by
teardown a frame callback is still scheduled.  The code diverges here
from the specified behaviour ("the repeating schedule must be
cancelled"). -/
theorem C8_cleanup_keeps_schedule :
    (∀ s : AppState, (cleanup s).framePending = s.framePending) ∧
    (cleanup (animate 0 (initState 0))).framePending = true ∧
    (cleanup (initState 0)).resizeListenerAttached = false ∧
    (cleanup (initState 0)).rendererDisposed = true :=
  ⟨fun _ => rfl, rfl, rfl, rfl⟩

/-! ## Claims C6 and C7 (geolocation) -/

/-- Claim C6: if the geolocation query fails — the error callback fires
or the provider is unsupported — the marker position is set exactly to
the on-sphere position computed for the fallback coordinates
(45.464, 9.190); the failure is logged and every branch is total, and
the fallback position lies exactly on the sphere of radius 2. -/
theorem C6_geo_fallback (s : AppState) :
    (applyGeoOutcome .geoError s).dotPos = positionDotAtLocation 45.464 9.190 ∧
    (applyGeoOutcome .unsupported s).dotPos = positionDotAtLocation 45.464 9.190 ∧
    (applyGeoOutcome .geoError s).loggedGeoError = true ∧
    (applyGeoOutcome .unsupported s).loggedGeoError = true ∧
    mag (positionDotAtLocation 45.464 9.190) = 2 :=
  ⟨rfl, rfl, rfl, rfl, mag_positionDot _ _⟩

/-- Claim C7, counterexample: until the one-shot geolocation query
resolves the marker does not hold the fallback coordinate — it holds the
`THREE.Object3D` default position `(0, 0, 0)`, which differs from the
on-sphere fallback position. -/
theorem C7_counterexample :
    (initState 0).dotPos = (⟨0, 0, 0⟩ : Vec3) ∧
    (initState 0).dotPos ≠ positionDotAtLocation 45.464 9.190 := by
  refine ⟨rfl, ?_⟩
  intro h
  have h0 : (0 : ℝ) = 2 := by
    rw [← mag_zero_vec, ← mag_positionDot 45.464 9.190, ← h]
    rfl
  norm_num at h0

/-- Claim C7 (amended): from startup until the geolocation query
resolves the marker holds the mesh default origin (0, 0, 0), not the
fallback coordinate; the unsupported branch sets it synchronously to the
fallback; and the query's result or failure is consumed exactly once —
at most one `getCurrentPosition` call is ever issued, with no retry. -/
theorem C7_marker_startup (t0 : ℝ) (sup : Bool) :
    (initState t0).dotPos = (⟨0, 0, 0⟩ : Vec3) ∧
    (applyGeoOutcome .unsupported (initState t0)).dotPos
      = positionDotAtLocation 45.464 9.190 ∧
    geolocationRequests sup ≤ 1 := by
  refine ⟨rfl, rfl, ?_⟩
  cases sup <;> simp [geolocationRequests]

/-! ## Special values of the embedded Math.atan2 -/

theorem atan2_of_pos {y x : ℝ} (hx : 0 < x) : atan2 y x = Real.arctan (y / x) := by
  simp only [atan2]
  rw [if_pos hx]

theorem atan2_zero_of_pos {x : ℝ} (hx : 0 < x) : atan2 0 x = 0 := by
  rw [atan2_of_pos hx, zero_div, Real.arctan_zero]

theorem atan2_zero_of_neg {x : ℝ} (hx : x < 0) : atan2 0 x = Real.pi := by
  simp only [atan2]
  rw [if_neg (by linarith), if_pos hx, if_pos le_rfl, zero_div, Real.arctan_zero, zero_add]

theorem atan2_of_neg_zero {y : ℝ} (hy : y < 0) : atan2 y 0 = -(Real.pi / 2) := by
  simp only [atan2]
  rw [if_neg (lt_irrefl 0), if_neg (lt_irrefl 0), if_neg (by linarith), if_pos hy]

theorem atan2_zero_zero : atan2 0 0 = 0 := by
  simp only [atan2]
  rw [if_neg (lt_irrefl 0), if_neg (lt_irrefl 0), if_neg (lt_irrefl 0), if_neg (lt_irrefl 0)]

theorem inverseLatLon_eval (v : Vec3) :
    inverseLatLon v
      = (90 - Real.arccos (v.y / 2) * (180 / Real.pi),
         (if atan2 v.z (-v.x) < 0 then atan2 v.z (-v.x) + 2 * Real.pi else atan2 v.z (-v.x))
           * (180 / Real.pi) - 180) := rfl

/-! ## Round-trip evaluations at the four cardinal test points -/

theorem roundTrip_equator_prime : inverseLatLon (positionDotAtLocation 0 0) = (0, 0) := by
  have hphi : ((90 : ℝ) - 0) * (Real.pi / 180) = Real.pi / 2 := by ring
  have hth : ((0 : ℝ) + 180) * (Real.pi / 180) = Real.pi := by ring
  have hv : positionDotAtLocation 0 0 = ⟨2, 0, 0⟩ := by
    simp only [positionDotAtLocation, hphi, hth, Real.sin_pi_div_two, Real.cos_pi_div_two,
      Real.sin_pi, Real.cos_pi, Vec3.mk.injEq]
    norm_num
  rw [hv, inverseLatLon_eval]
  show (90 - Real.arccos ((0 : ℝ) / 2) * (180 / Real.pi),
        (if atan2 (0 : ℝ) (-(2 : ℝ)) < 0 then atan2 (0 : ℝ) (-(2 : ℝ)) + 2 * Real.pi
         else atan2 (0 : ℝ) (-(2 : ℝ))) * (180 / Real.pi) - 180) = ((0 : ℝ), (0 : ℝ))
  have ha : Real.arccos ((0 : ℝ) / 2) = Real.pi / 2 := by
    rw [zero_div, Real.arccos_zero]
  have hb : atan2 (0 : ℝ) (-(2 : ℝ)) = Real.pi := atan2_zero_of_neg (by norm_num)
  rw [ha, hb, if_neg (not_lt.mpr Real.pi_pos.le)]
  have hπ := Real.pi_ne_zero
  simp only [Prod.mk.injEq]
  constructor
  · field_simp
    ring
  · field_simp

theorem roundTrip_south : inverseLatLon (positionDotAtLocation (-45) 90) = (-45, 90) := by
  have hphi : ((90 : ℝ) - -45) * (Real.pi / 180) = 3 * Real.pi / 4 := by ring
  have hth : ((90 : ℝ) + 180) * (Real.pi / 180) = 3 * Real.pi / 2 := by ring
  have hs34 : Real.sin (3 * Real.pi / 4) = Real.sqrt 2 / 2 := by
    rw [show 3 * Real.pi / 4 = Real.pi - Real.pi / 4 by ring, Real.sin_pi_sub,
      Real.sin_pi_div_four]
  have hc34 : Real.cos (3 * Real.pi / 4) = -(Real.sqrt 2 / 2) := by
    rw [show 3 * Real.pi / 4 = Real.pi - Real.pi / 4 by ring, Real.cos_pi_sub,
      Real.cos_pi_div_four]
  have hs32 : Real.sin (3 * Real.pi / 2) = -1 := by
    rw [show 3 * Real.pi / 2 = Real.pi + Real.pi / 2 by ring, Real.sin_add]
    simp
  have hc32 : Real.cos (3 * Real.pi / 2) = 0 := by
    rw [show 3 * Real.pi / 2 = Real.pi + Real.pi / 2 by ring, Real.cos_add]
    simp
  have hv : positionDotAtLocation (-45) 90 = ⟨0, -Real.sqrt 2, -Real.sqrt 2⟩ := by
    simp only [positionDotAtLocation, hphi, hth, hs34, hc34, hs32, hc32, Vec3.mk.injEq]
    refine ⟨by ring, by ring, by ring⟩
  rw [hv, inverseLatLon_eval]
  show (90 - Real.arccos (-Real.sqrt 2 / 2) * (180 / Real.pi),
        (if atan2 (-Real.sqrt 2) (-(0 : ℝ)) < 0
         then atan2 (-Real.sqrt 2) (-(0 : ℝ)) + 2 * Real.pi
         else atan2 (-Real.sqrt 2) (-(0 : ℝ))) * (180 / Real.pi) - 180)
      = ((-45 : ℝ), (90 : ℝ))
  have hsqrt2 : (0 : ℝ) < Real.sqrt 2 := Real.sqrt_pos.mpr (by norm_num)
  have ha : Real.arccos (-Real.sqrt 2 / 2) = 3 * Real.pi / 4 := by
    rw [show -Real.sqrt 2 / 2 = Real.cos (3 * Real.pi / 4) by rw [hc34]; ring,
      Real.arccos_cos (by positivity) (by linarith [Real.pi_pos])]
  have hb : atan2 (-Real.sqrt 2) (-(0 : ℝ)) = -(Real.pi / 2) := by
    rw [neg_zero]
    exact atan2_of_neg_zero (by linarith)
  rw [ha, hb, if_pos (by linarith [Real.pi_pos])]
  have hπ := Real.pi_ne_zero
  simp only [Prod.mk.injEq]
  constructor
  · field_simp
    ring
  · field_simp
    ring

theorem roundTrip_dateline : inverseLatLon (positionDotAtLocation 0 (-180)) = (0, -180) := by
  have hphi : ((90 : ℝ) - 0) * (Real.pi / 180) = Real.pi / 2 := by ring
  have hth : ((-180 : ℝ) + 180) * (Real.pi / 180) = 0 := by ring
  have hv : positionDotAtLocation 0 (-180) = ⟨-2, 0, 0⟩ := by
    simp only [positionDotAtLocation, hphi, hth, Real.sin_pi_div_two, Real.cos_pi_div_two,
      Real.sin_zero, Real.cos_zero, Vec3.mk.injEq]
    norm_num
  rw [hv, inverseLatLon_eval]
  show (90 - Real.arccos ((0 : ℝ) / 2) * (180 / Real.pi),
        (if atan2 (0 : ℝ) (-(-2 : ℝ)) < 0 then atan2 (0 : ℝ) (-(-2 : ℝ)) + 2 * Real.pi
         else atan2 (0 : ℝ) (-(-2 : ℝ))) * (180 / Real.pi) - 180) = ((0 : ℝ), (-180 : ℝ))
  have ha : Real.arccos ((0 : ℝ) / 2) = Real.pi / 2 := by
    rw [zero_div, Real.arccos_zero]
  have hb : atan2 (0 : ℝ) (-(-2 : ℝ)) = 0 := by
    rw [neg_neg]
    exact atan2_zero_of_pos (by norm_num)
  rw [ha, hb, if_neg (lt_irrefl 0)]
  have hπ := Real.pi_ne_zero
  simp only [Prod.mk.injEq]
  constructor
  · field_simp
    ring
  · norm_num

theorem roundTrip_pole : inverseLatLon (positionDotAtLocation 90 0) = (90, -180) := by
  have hphi : ((90 : ℝ) - 90) * (Real.pi / 180) = 0 := by ring
  have hth : ((0 : ℝ) + 180) * (Real.pi / 180) = Real.pi := by ring
  have hv : positionDotAtLocation 90 0 = ⟨0, 2, 0⟩ := by
    simp only [positionDotAtLocation, hphi, hth, Real.sin_zero, Real.cos_zero,
      Real.sin_pi, Real.cos_pi, Vec3.mk.injEq]
    norm_num
  rw [hv, inverseLatLon_eval]
  show (90 - Real.arccos ((2 : ℝ) / 2) * (180 / Real.pi),
        (if atan2 (0 : ℝ) (-(0 : ℝ)) < 0 then atan2 (0 : ℝ) (-(0 : ℝ)) + 2 * Real.pi
         else atan2 (0 : ℝ) (-(0 : ℝ))) * (180 / Real.pi) - 180) = ((90 : ℝ), (-180 : ℝ))
  have ha : Real.arccos ((2 : ℝ) / 2) = 0 := by
    norm_num [Real.arccos_one]
  have hb : atan2 (0 : ℝ) (-(0 : ℝ)) = 0 := by
    rw [neg_zero]
    exact atan2_zero_zero
  rw [ha, hb, if_neg (lt_irrefl 0)]
  simp only [Prod.mk.injEq]
  constructor
  · ring
  · ring

theorem posDot_pole_const (lon : ℝ) :
    positionDotAtLocation 90 lon = positionDotAtLocation 90 0 := by
  have h0 : ((90 : ℝ) - 90) * (Real.pi / 180) = 0 := by ring
  simp only [positionDotAtLocation, h0, Real.sin_zero, Real.cos_zero, Vec3.mk.injEq]
  norm_num

/-! ## Claim C5 -/

/-- Claim C5, counterexample: at the cardinal test point (90, 0) the
round trip does not recover the longitude within any tolerance below
180°: the forward map sends the pole to (0, 2, 0) regardless of
longitude, and the inverse formulas return longitude -180. -/
theorem C5_counterexample :
    (inverseLatLon (positionDotAtLocation 90 0)).2 = -180 ∧
    ¬ |(inverseLatLon (positionDotAtLocation 90 0)).2 - 0| ≤ 1 / 1000000 := by
  constructor
  · rw [roundTrip_pole]
  · rw [roundTrip_pole]
    intro hc
    rw [show ((90 : ℝ), (-180 : ℝ)).2 - 0 = -180 by norm_num] at hc
    rw [abs_of_neg (by norm_num)] at hc
    norm_num at hc

/-- Claim C5 (amended): converting (lat, lon) to Cartesian via the
marker-placement formula and back via the modelled inverse spherical
formulas recovers (lat, lon) exactly at the cardinal test points (0, 0),
(-45, 90) and (0, -180); at the pole (90, 0) the latitude is recovered
but the longitude comes back as -180, because the forward map at
latitude 90 is independent of longitude. -/
theorem C5_round_trip :
    inverseLatLon (positionDotAtLocation 0 0) = (0, 0) ∧
    inverseLatLon (positionDotAtLocation (-45) 90) = (-45, 90) ∧
    inverseLatLon (positionDotAtLocation 0 (-180)) = (0, -180) ∧
    inverseLatLon (positionDotAtLocation 90 0) = (90, -180) ∧
    ∀ lon : ℝ, positionDotAtLocation 90 lon = positionDotAtLocation 90 0 :=
  ⟨roundTrip_equator_prime, roundTrip_south, roundTrip_dateline, roundTrip_pole,
    posDot_pole_const⟩

/-! ## Claim C4: declination bound and the altitude counterexample -/

theorem arctan_le_self_of_nonneg {y : ℝ} (hy : 0 ≤ y) : Real.arctan y ≤ y := by
  rcases eq_or_lt_of_le hy with h | h
  · rw [← h, Real.arctan_zero]
  · have h1 : 0 < Real.arctan y := by
      have h2 := Real.arctan_strictMono h
      rwa [Real.arctan_zero] at h2
    have h2 := Real.lt_tan h1 (Real.arctan_lt_pi_div_two y)
    rw [Real.tan_arctan] at h2
    exact h2.le

theorem abs_arctan_le_abs (x : ℝ) : |Real.arctan x| ≤ |x| := by
  rcases le_or_lt 0 x with h | h
  · have h0 : 0 ≤ Real.arctan x := by
      have h2 := Real.arctan_strictMono.monotone h
      rwa [Real.arctan_zero] at h2
    rw [abs_of_nonneg h, abs_of_nonneg h0]
    exact arctan_le_self_of_nonneg h
  · have h0 : Real.arctan x < 0 := by
      have h2 := Real.arctan_strictMono h
      rwa [Real.arctan_zero] at h2
    rw [abs_of_neg h, abs_of_neg h0, ← Real.arctan_neg]
    exact arctan_le_self_of_nonneg (by linarith)

/-- Claim C4 (amended): for every instant, the subsolar latitude — the
solar declination computed inside the modelled solar-position
algorithm — satisfies -23.44° ≤ φ_s ≤ 23.44° (the algorithm's obliquity
constant is 23.4397°). -/
theorem C4_subsolar_latitude_bounded (ms : ℝ) :
    |declination (eclipticLongitude (solarMeanAnomaly (toDays ms))) 0| ≤ rad * 23.44 := by
  set l := eclipticLongitude (solarMeanAnomaly (toDays ms)) with hldef
  have hπ := Real.pi_pos
  have he0 : (0 : ℝ) ≤ obliquity := by
    rw [obliquity, rad]
    positivity
  have he2 : obliquity ≤ Real.pi / 2 := by
    rw [obliquity, rad]
    nlinarith
  have hsine : (0 : ℝ) ≤ Real.sin obliquity :=
    Real.sin_nonneg_of_nonneg_of_le_pi he0 (by linarith)
  have hdec : declination l 0 = Real.arcsin (Real.sin l * Real.sin obliquity) := by
    rw [declination, Real.sin_zero, Real.cos_zero]
    ring_nf
  rw [hdec]
  have hb1 : Real.sin l * Real.sin obliquity ≤ Real.sin obliquity := by
    nlinarith [Real.sin_le_one l, Real.neg_one_le_sin l]
  have hb2 : -Real.sin obliquity ≤ Real.sin l * Real.sin obliquity := by
    nlinarith [Real.sin_le_one l, Real.neg_one_le_sin l]
  have hE : Real.arcsin (Real.sin obliquity) = obliquity :=
    Real.arcsin_sin (by linarith) he2
  have hkey : |Real.arcsin (Real.sin l * Real.sin obliquity)| ≤ obliquity := by
    rw [abs_le]
    constructor
    · have h2 := Real.monotone_arcsin hb2
      rwa [Real.arcsin_neg, hE] at h2
    · have h2 := Real.monotone_arcsin hb1
      rwa [hE] at h2
  refine hkey.trans ?_
  rw [obliquity, rad]
  nlinarith

theorem sunDirection1_y_eq (ms : ℝ) : (sunDirection1 ms).y
    = Real.sin (altitude
        (siderealTime (toDays ms) (rad * (-0))
          - rightAscension (eclipticLongitude (solarMeanAnomaly (toDays ms))) 0)
        (rad * 0)
        (declination (eclipticLongitude (solarMeanAnomaly (toDays ms))) 0)) := rfl

/-- If the degree angles driving the ecliptic longitude and the sidereal
time both reduce to small residues mod 360, the y-component of the
variant-1 solar direction vector — the sine of the sun's altitude at the
reference location (0, 0) — is at least 0.99. -/
theorem sunDirY_ge (ms a s : ℝ) (n p : ℤ)
    (ha : 357.5291 + 0.98560028 * toDays ms + 102.9372 + 180 = a + (n : ℝ) * 360)
    (hab : |a| ≤ 0.5)
    (hs : 280.16 + 360.9856235 * toDays ms = s + (p : ℝ) * 360)
    (hsb : |s| ≤ 0.5) :
    (0.99 : ℝ) ≤ (sunDirection1 ms).y := by
  have hπl : (3.141592 : ℝ) < Real.pi := Real.pi_gt_3141592
  have hπu : Real.pi < 3.141593 := Real.pi_lt_3141593
  have hπdiv : (0 : ℝ) < Real.pi / 180 := by positivity
  set d := toDays ms with hddef
  set M := solarMeanAnomaly d with hMdef
  set L := eclipticLongitude M with hLdef
  clear_value d M L
  set csum := 1.9148 * Real.sin M + 0.02 * Real.sin (2 * M) + 0.0003 * Real.sin (3 * M)
    with hcsumdef
  clear_value csum
  have hcsumb : |csum| ≤ 1.9351 := by
    rw [hcsumdef, abs_le]
    have a1 := Real.neg_one_le_sin M
    have a2 := Real.sin_le_one M
    have a3 := Real.neg_one_le_sin (2 * M)
    have a4 := Real.sin_le_one (2 * M)
    have a5 := Real.neg_one_le_sin (3 * M)
    have a6 := Real.sin_le_one (3 * M)
    constructor <;> linarith
  have hLsplit : L = Real.pi / 180 * (a + (n : ℝ) * 360) + Real.pi / 180 * csum := by
    rw [hLdef, eclipticLongitude, hcsumdef, hMdef, solarMeanAnomaly, rad, ← ha]
    ring
  have hHval : siderealTime d (rad * (-0)) - rightAscension L 0
      = (Real.pi / 180 * s - rightAscension L 0) + (p : ℝ) * (2 * Real.pi) := by
    rw [siderealTime, rad, hs]
    ring
  clear ha hs
  have hsinL : Real.sin L = Real.sin (Real.pi / 180 * a + Real.pi / 180 * csum) := by
    rw [hLsplit]
    have h2 : Real.pi / 180 * (a + (n : ℝ) * 360) + Real.pi / 180 * csum
        = (Real.pi / 180 * a + Real.pi / 180 * csum) + (n : ℝ) * (2 * Real.pi) := by ring
    rw [h2, Real.sin_add_int_mul_two_pi]
  have hcosL : Real.cos L = Real.cos (Real.pi / 180 * a + Real.pi / 180 * csum) := by
    rw [hLsplit]
    have h2 : Real.pi / 180 * (a + (n : ℝ) * 360) + Real.pi / 180 * csum
        = (Real.pi / 180 * a + Real.pi / 180 * csum) + (n : ℝ) * (2 * Real.pi) := by ring
    rw [h2, Real.cos_add_int_mul_two_pi]
  have hηb : |Real.pi / 180 * a + Real.pi / 180 * csum| ≤ 0.0426 := by
    have h1 : |Real.pi / 180 * a| ≤ 0.00873 := by
      rw [abs_mul, abs_of_pos hπdiv]
      have hm := mul_le_mul hπu.le hab (abs_nonneg a) (by norm_num)
      linarith
    have h2 : |Real.pi / 180 * csum| ≤ 0.0338 := by
      rw [abs_mul, abs_of_pos hπdiv]
      have hm := mul_le_mul hπu.le hcsumb (abs_nonneg csum) (by norm_num)
      linarith
    calc |Real.pi / 180 * a + Real.pi / 180 * csum|
        ≤ |Real.pi / 180 * a| + |Real.pi / 180 * csum| := abs_add _ _
      _ ≤ 0.0426 := by linarith
  have hsinLb : |Real.sin L| ≤ 0.0426 := by
    rw [hsinL]
    exact Real.abs_sin_le_abs.trans hηb
  have hcosLb : (0.999 : ℝ) ≤ Real.cos L := by
    rw [hcosL]
    have h1 : 1 - (Real.pi / 180 * a + Real.pi / 180 * csum) ^ 2 / 2
        ≤ Real.cos (Real.pi / 180 * a + Real.pi / 180 * csum) :=
      Real.one_sub_sq_div_two_le_cos
    have h2 := abs_le.mp hηb
    have h3 : (Real.pi / 180 * a + Real.pi / 180 * csum) ^ 2 ≤ 0.0426 ^ 2 :=
      sq_le_sq' h2.1 h2.2
    linarith
  have hcosLpos : (0 : ℝ) < Real.cos L := by linarith
  have hraval : rightAscension L 0
      = Real.arctan (Real.sin L * Real.cos obliquity / Real.cos L) := by
    rw [rightAscension, Real.tan_zero, zero_mul, sub_zero, atan2_of_pos hcosLpos]
  have hrab : |rightAscension L 0| ≤ 0.043 := by
    rw [hraval]
    refine (abs_arctan_le_abs _).trans ?_
    rw [abs_div, abs_mul, abs_of_pos hcosLpos, div_le_iff hcosLpos]
    have hc1 := Real.abs_cos_le_one obliquity
    have hm : |Real.sin L| * |Real.cos obliquity| ≤ 0.0426 * 1 :=
      mul_le_mul hsinLb hc1 (abs_nonneg _) (by norm_num)
    linarith
  have hdecval : declination L 0 = Real.arcsin (Real.sin L * Real.sin obliquity) := by
    rw [declination, Real.sin_zero, Real.cos_zero]
    ring_nf
  have htb : |Real.sin L * Real.sin obliquity| ≤ 0.0426 := by
    rw [abs_mul]
    have h1 := Real.abs_sin_le_one obliquity
    have hm : |Real.sin L| * |Real.sin obliquity| ≤ 0.0426 * 1 :=
      mul_le_mul hsinLb h1 (abs_nonneg _) (by norm_num)
    linarith
  have hcosdec : (0.999 : ℝ) ≤ Real.cos (declination L 0) := by
    rw [hdecval, Real.cos_arcsin, Real.le_sqrt' (by norm_num)]
    have h2 := abs_le.mp htb
    have h3 : (Real.sin L * Real.sin obliquity) ^ 2 ≤ 0.0426 ^ 2 := sq_le_sq' h2.1 h2.2
    linarith
  have hcosHred : Real.cos (siderealTime d (rad * (-0)) - rightAscension L 0)
      = Real.cos (Real.pi / 180 * s - rightAscension L 0) := by
    rw [hHval, Real.cos_add_int_mul_two_pi]
  have hξb : |Real.pi / 180 * s - rightAscension L 0| ≤ 0.052 := by
    have h1 : |Real.pi / 180 * s| ≤ 0.00873 := by
      rw [abs_mul, abs_of_pos hπdiv]
      have hm := mul_le_mul hπu.le hsb (abs_nonneg s) (by norm_num)
      linarith
    calc |Real.pi / 180 * s - rightAscension L 0|
        ≤ |Real.pi / 180 * s| + |rightAscension L 0| := abs_sub _ _
      _ ≤ 0.052 := by linarith
  have hcosHb : (0.998 : ℝ)
      ≤ Real.cos (siderealTime d (rad * (-0)) - rightAscension L 0) := by
    rw [hcosHred]
    have h1 : 1 - (Real.pi / 180 * s - rightAscension L 0) ^ 2 / 2
        ≤ Real.cos (Real.pi / 180 * s - rightAscension L 0) :=
      Real.one_sub_sq_div_two_le_cos
    have h2 := abs_le.mp hξb
    have h3 : (Real.pi / 180 * s - rightAscension L 0) ^ 2 ≤ 0.052 ^ 2 :=
      sq_le_sq' h2.1 h2.2
    linarith
  have haltval : altitude (siderealTime d (rad * (-0)) - rightAscension L 0) (rad * 0)
        (declination L 0)
      = Real.arcsin (Real.cos (declination L 0)
          * Real.cos (siderealTime d (rad * (-0)) - rightAscension L 0)) := by
    rw [altitude, show rad * (0 : ℝ) = 0 by rw [rad]; ring, Real.sin_zero, Real.cos_zero]
    ring_nf
  have hc1 := Real.abs_cos_le_one (declination L 0)
  have hc2 := Real.abs_cos_le_one (siderealTime d (rad * (-0)) - rightAscension L 0)
  have hprodabs : |Real.cos (declination L 0)
      * Real.cos (siderealTime d (rad * (-0)) - rightAscension L 0)| ≤ 1 := by
    rw [abs_mul]
    exact mul_le_one hc1 (abs_nonneg _) hc2
  have hprod := abs_le.mp hprodabs
  rw [sunDirection1_y_eq ms, ← hddef, ← hMdef, ← hLdef, haltval,
    Real.sin_arcsin hprod.1 hprod.2]
  have hfinal := mul_le_mul hcosdec hcosHb (by norm_num) (by linarith)
  linarith

/-- Claim C4, counterexample: at the instant with timestamp
1111492860480 (2005-03-22 12:01:00.480 UTC, near the March equinox at
solar noon of the reference location (0, 0)), the y-component of the
solar direction vector is at least 0.99 and so exceeds sin(23.44°): the
vector stores the sine of the local solar altitude, not the sine of the
subsolar latitude. -/
theorem C4_counterexample :
    Real.sin (rad * 23.44) < (sunDirection1 1111492860480).y ∧
    ¬ |(sunDirection1 1111492860480).y| ≤ Real.sin (rad * 23.44) := by
  have hπl : (3.141592 : ℝ) < Real.pi := Real.pi_gt_3141592
  have hπu : Real.pi < 3.141593 := Real.pi_lt_3141593
  have hd : toDays 1111492860480 = 19070007 / 10000 := by
    rw [toDays, dayMs]
    norm_num
  have hy : (0.99 : ℝ) ≤ (sunDirection1 1111492860480).y := by
    apply sunDirY_ge 1111492860480 (1680970049 / 250000000000)
      (-65911271 / 20000000000) 7 1913
    · rw [hd]
      norm_num
    · rw [abs_of_pos (by norm_num)]
      norm_num
    · rw [hd]
      norm_num
    · rw [abs_of_neg (by norm_num)]
      norm_num
  have hradpos : (0 : ℝ) < rad * 23.44 := by
    rw [rad]
    positivity
  have habs : |Real.sin (rad * 23.44)| ≤ |rad * 23.44| := Real.abs_sin_le_abs
  rw [abs_of_pos hradpos] at habs
  have hsin_le : Real.sin (rad * 23.44) ≤ rad * 23.44 := by
    have h1 := le_abs_self (Real.sin (rad * 23.44))
    linarith
  have hub : rad * 23.44 ≤ 0.40912 := by
    rw [rad]
    nlinarith
  constructor
  · linarith
  · intro hc
    have h2 := le_abs_self ((sunDirection1 1111492860480).y)
    linarith

end Lightpath
